import Mathlib

/-!
Verification of the Telegram channel adapter (`bottery/platform/telegram.py`).

The source file is embedded shallowly:
  * JSON-like payloads become the inductive `JValue`; Python truthiness
    becomes `JValue.truthy`; `dict.get` (defaulting to `None`) becomes
    `JValue.get`; `dict[key]` (raising `KeyError` when absent) becomes
    `JValue.index` returning an `Option`.
  * `mixed_case`, `TelegramAPI.make_url` and `TelegramAPI.__getattr__`
    become pure functions on strings; an `AttributeError` becomes `none`.
  * `TelegramUser.__init__` and `TelegramEngine.build_message` become
    `Option`-returning constructors; the outer `Option` of `build_message`
    records whether a Python exception escapes (`none`), the inner one the
    returned value (`some none` models `return None`).
  * The polling coroutine's offset/cursor handling becomes a recursion over
    a scripted list of `get_updates` responses, producing the offset each
    call carries.
  * `configure` / `configure_webhook` become `Except`-valued functions whose
    `ok` result lists the remote calls the routine performs.
-/

namespace BotteryTelegram

/-- JSON-like values as the adapter sees them after `response.json()` /
`request.json()`: `null`, booleans, integers, strings and objects
(association lists, first binding wins as in `dict` lookup for the keys we
model). -/
inductive JValue where
  | null : JValue
  | bool (b : Bool) : JValue
  | num (n : Int) : JValue
  | str (s : String) : JValue
  | obj (fields : List (String × JValue)) : JValue

/-- Python truthiness of a `JValue`: `None`, `False`, `0`, `""` and the empty
dict are falsy, everything else is truthy. -/
def JValue.truthy : JValue → Bool
  | .null => false
  | .bool b => b
  | .num n => n != 0
  | .str s => s != ""
  | .obj fs => !fs.isEmpty

/-- Embedding of Python `d.get(key)`: the value bound to `key`, or `None`
when the key is absent (and `None` on a non-dict, which the source never
feeds it). -/
def JValue.get (v : JValue) (k : String) : JValue :=
  match v with
  | .obj fs =>
    match fs.lookup k with
    | some x => x
    | none => .null
  | _ => .null

/-- Embedding of Python `d[key]`: `some` the bound value, `none` when the
lookup raises (`KeyError` on a missing key, `TypeError` on a non-dict). -/
def JValue.index (v : JValue) (k : String) : Option JValue :=
  match v with
  | .obj fs => fs.lookup k
  | _ => none

/-- Source `mixed_case` helper, `words = string.split('_')`: split the
character list at every underscore, keeping empty segments exactly as
Python `str.split('_')` does. -/
def splitUnderscoreAux (acc : List Char) : List Char → List (List Char)
  | [] => [acc.reverse]
  | c :: cs =>
    if c = '_' then acc.reverse :: splitUnderscoreAux [] cs
    else splitUnderscoreAux (c :: acc) cs

/-- Python `str.lower()` on a segment. -/
def pyLower (w : List Char) : List Char := w.map Char.toLower

/-- Python `str.title()` on a segment: a letter that follows a non-letter is
uppercased, a letter that follows a letter is lowercased; other characters
pass through and reset the word boundary. -/
def pyTitleAux (prevLetter : Bool) : List Char → List Char
  | [] => []
  | c :: cs =>
    if c.isAlpha then
      (if prevLetter then c.toLower else c.toUpper) :: pyTitleAux true cs
    else c :: pyTitleAux false cs

/-- Source `mixed_case(string)`: lowercase the first underscore-separated
segment and append the title-cased remaining segments. -/
def mixed_case (s : String) : String :=
  match splitUnderscoreAux [] s.data with
  | [] => ""
  | w :: rest => ⟨pyLower w ++ (rest.map (pyTitleAux false)).flatten⟩

/-- `TelegramAPI.api_url`. -/
def api_url : String := "https://api.telegram.org"

/-- `TelegramAPI.methods`, the fixed allow-list of remote operations. -/
def telegram_methods : List String :=
  ["delete_webhook", "send_message", "set_webhook", "get_updates"]

/-- `TelegramAPI.make_url`: base URL, then `/bot`, the token, `/` and the
mixed-case operation name. -/
def make_url (token method_name : String) : String :=
  api_url ++ "/bot" ++ token ++ "/" ++ mixed_case method_name

/-- Source `TelegramAPI.__getattr__`: an operation name outside
`telegram_methods` raises `AttributeError` (`none`) before any URL is built
or any closure that could POST is produced; an allowed name yields the
closure's target URL (`some`), the POST happening only when the closure is
later invoked. -/
def telegram_api_getattr (token attr : String) : Option String :=
  if telegram_methods.contains attr then some (make_url token attr) else none

/-- `TelegramUser` snapshot: `id` and `first_name` come from mandatory
lookups, the rest from `sender.get(...)` and so default to `null`. -/
structure TelegramUser where
  id : JValue
  first_name : JValue
  last_name : JValue
  username : JValue
  language : JValue

/-- `TelegramUser.__init__(sender)`: `none` when `sender['id']` or
`sender['first_name']` raises `KeyError`. -/
def TelegramUser.build (sender : JValue) : Option TelegramUser :=
  match sender.index "id", sender.index "first_name" with
  | some i, some f =>
    some ⟨i, f, sender.get "last_name", sender.get "username",
          sender.get "language_code"⟩
  | _, _ => none

/-- The canonical `Message` built by `TelegramEngine.build_message`. -/
structure Message where
  id : JValue
  platform : String
  text : JValue
  user : TelegramUser
  timestamp : JValue
  raw : JValue

/-- `TelegramEngine.build_message(data)`. The outer `Option` is `none` when
a Python exception escapes (a `KeyError` on `message_id`, `text`, `from` or
`date`, or inside `TelegramUser`); `some none` models `return None` (the
`message` entry is absent or falsy); `some (some m)` is a constructed
`Message` with `platform` fixed to the class tag `"telegram"` and `raw` the
whole original payload. -/
def build_message (data : JValue) : Option (Option Message) :=
  let message_data := data.get "message"
  if message_data.truthy then
    match message_data.index "message_id", message_data.index "text",
          message_data.index "from", message_data.index "date" with
    | some mid, some txt, some frm, some dt =>
      match TelegramUser.build frm with
      | some u => some (some ⟨mid, "telegram", txt, u, dt, data⟩)
      | none => none
    | _, _, _, _ => none
  else some none

/-- A Python exception escaping `message_handler`. -/
inductive PyError where
  | keyError : PyError
  | attributeError : PyError

/-- An outbound `send_message` POST:
`send_message(chat_id=..., text=..., parser_mode='markdown')`. -/
structure SendCall where
  chat_id : JValue
  text : String
  parser_mode : String

/-- Outcome of one `message_handler(data)` run: either an exception escaped
(`raised`), or the coroutine returned, carrying the list of outbound
`send_message` calls it made (empty when no view matched). -/
inductive HandlerResult where
  | raised (e : PyError) : HandlerResult
  | done (sent : List SendCall) : HandlerResult

/-- `TelegramEngine.message_handler(data)`. `discover_view` and
`get_response` live outside this file's source (external collaborators);
per the spec they are one abstract resolver `resolve : Message → Option
String`, `none` meaning no view matched and `some r` the response text.
The handler first builds the message and then formats the log line, which
reads `message.user`: when `build_message` returned `None` that attribute
access raises `AttributeError` before `discover_view` is ever consulted,
so no `send_message` is issued on that path — but the coroutine faults
rather than completing silently. -/
def message_handler (resolve : Message → Option String) (data : JValue) :
    HandlerResult :=
  match build_message data with
  | none => .raised .keyError
  | some none => .raised .attributeError
  | some (some m) =>
    match resolve m with
    | none => .done []
    | some r => .done [⟨m.user.id, r, "markdown"⟩]

/-- Offset carried by one `get_updates` call, from the cursor
(`last_update`): the source guards with `if last_update:` — Python
truthiness — so both `None` and the integer `0` suppress the `offset`
parameter; otherwise `offset = last_update + 1`. -/
def pollingPayloadOffset (cursor : Option Int) : Option Int :=
  match cursor with
  | none => none
  | some n => if n = 0 then none else some (n + 1)

/-- Cursor update after one response batch: when the batch is nonempty the
cursor becomes the last element's `update_id`, otherwise it is unchanged
(`if len(updates.get('result', [])): last_update = result[-1]['update_id']`). -/
def pollingNextCursor (cursor : Option Int) (batch : List Int) : Option Int :=
  if batch.isEmpty then cursor else some (batch.getLastD 0)

/-- The sequence of `offset` parameters the polling loop sends, given the
initial cursor and a scripted list of `get_updates` responses (each
response the list of its updates' `update_id`s). One entry per call. -/
def pollingOffsetsAux (cursor : Option Int) :
    List (List Int) → List (Option Int)
  | [] => []
  | b :: rest =>
    pollingPayloadOffset cursor :: pollingOffsetsAux (pollingNextCursor cursor b) rest

/-- `TelegramEngine.polling` offset trace from a fresh start:
`configure_polling` registers `self.polling` with `last_update=None`. -/
def pollingOffsets (resps : List (List Int)) : List (Option Int) :=
  pollingOffsetsAux none resps

/-- `ImproperlyConfigured` errors the configuration surface raises:
`missingHostname` models `ImproperlyConfigured('Missing HOSTNAME
setting')`; `noConfigureMethod mode` models the `configure` failure whose
message names `mode` as having no configuration method. -/
inductive ConfigError where
  | missingHostname : ConfigError
  | noConfigureMethod (mode : String) : ConfigError

/-- A remote Bot-API call performed by a configuration routine. -/
inductive RemoteCall where
  | delete_webhook : RemoteCall
  | set_webhook (url : String) : RemoteCall

/-- `TelegramEngine.configure_webhook`.

Modelled from the spec: the settings store (`bottery.conf.settings`, not in
the source tree) yields the configured externally reachable hostname, here
passed as `hostname : Option String` with `none` for an unconfigured value —
per the spec, an absent hostname must «fail fatally (missing required
configuration)». The source then checks `if not hostname:` (falsy also for
the empty string) and raises `ImproperlyConfigured` before any remote call;
only a truthy hostname reaches `set_webhook(url=hostname)`. The `ok` result
lists the remote calls of one run, in order (route registration on the local
router follows and is not a remote call). -/
def configure_webhook (hostname : Option String) :
    Except ConfigError (List RemoteCall) :=
  match hostname with
  | none => .error .missingHostname
  | some s =>
    if s = "" then .error .missingHostname
    else .ok [.set_webhook s]

/-- Two consecutive runs of `configure_webhook` with the same settings: the
remote calls of both runs, concatenated in order (the engine holds no state
the routine reads, so the second run starts from the same inputs). -/
def configure_webhook_twice (hostname : Option String) :
    Except ConfigError (List RemoteCall) :=
  match configure_webhook hostname with
  | .error e => .error e
  | .ok c1 =>
    match configure_webhook hostname with
    | .error e => .error e
    | .ok c2 => .ok (c1 ++ c2)

/-- The two configuration routines the engine defines. -/
inductive ConfigRoutine where
  | polling : ConfigRoutine
  | webhook : ConfigRoutine

/-- Attribute lookup `getattr(self, name, None)` restricted to the
configuration methods the engine class defines: only `configure_polling`
and `configure_webhook` exist. -/
def engine_configure_method (name : String) : Option ConfigRoutine :=
  if name = "configure_polling" then some .polling
  else if name = "configure_webhook" then some .webhook
  else none

/-- `TelegramEngine.configure`: build the method name `configure_` + mode,
look it up, raise `ImproperlyConfigured` when nothing (falsy `None`) comes
back, otherwise run the routine. -/
def configure (mode : String) : Except ConfigError ConfigRoutine :=
  match engine_configure_method ("configure_" ++ mode) with
  | some r => .ok r
  | none => .error (.noConfigureMethod mode)

/-- `TelegramEngine.__init__` mode default: when settings define no `mode`
attribute the engine uses `polling`. -/
def default_mode (modeSetting : Option String) : String :=
  modeSetting.getD "polling"

end BotteryTelegram

namespace BotteryTelegram

/-- Left cancellation for string concatenation, used to invert the
`configure_` + mode name construction. -/
lemma string_append_left_cancel {a b c : String} (h : a ++ b = a ++ c) : b = c := by
  have hd : a.data ++ b.data = a.data ++ c.data := by
    simpa [String.data_append] using congrArg String.data h
  have hbc := List.append_cancel_left hd
  cases b; cases c; exact congrArg String.mk hbc

/-- The defaulted last element of a nonempty list is one of its elements. -/
lemma getLastD_mem_of_ne_nil : ∀ (b : List Int) (d : Int), b ≠ [] → b.getLastD d ∈ b := by
  intro b
  induction b with
  | nil => intro d hb; exact absurd rfl hb
  | cons x xs ih =>
    intro d _
    cases xs with
    | nil => simp [List.getLastD]
    | cons y ys =>
      rw [List.getLastD_cons]
      exact List.mem_cons_of_mem x (ih x (by simp))

/-- Offset trace of the polling loop from an arbitrary cursor: the call at
position `n + 1` carries the offset derived from the cursor after batch
`n` — `payload(last id of batch n)` when that batch was nonempty, and the
same offset as call `n` when it was empty. -/
lemma pollingOffsetsAux_spec (n : Nat) :
    ∀ (c : Option Int) (resps : List (List Int)), n + 1 < resps.length →
      ((resps.getD n [] ≠ [] →
         (pollingOffsetsAux c resps)[n+1]? =
           some (pollingPayloadOffset (some ((resps.getD n []).getLastD 0))))
       ∧ (resps.getD n [] = [] →
         (pollingOffsetsAux c resps)[n+1]? = (pollingOffsetsAux c resps)[n]?)) := by
  induction n with
  | zero =>
    intro c resps h
    match resps with
    | b :: b2 :: rest =>
      constructor
      · intro hb
        simp only [List.getD_cons_zero] at hb ⊢
        simp [pollingOffsetsAux, pollingNextCursor, hb]
      · intro hb
        subst hb
        simp [pollingOffsetsAux, pollingNextCursor]
  | succ n ih =>
    intro c resps h
    match resps with
    | b :: rest =>
      have hlen : n + 1 < rest.length := by simpa using h
      have := ih (pollingNextCursor c b) rest hlen
      constructor
      · intro hb
        simp only [List.getD_cons_succ] at hb ⊢
        simpa [pollingOffsetsAux] using this.1 hb
      · intro hb
        simp only [List.getD_cons_succ] at hb ⊢
        simpa [pollingOffsetsAux] using this.2 hb

/-- Claim C1 (amended): starting from a fresh polling loop, the first
`get_updates` call carries no offset; given responses whose updates have
strictly increasing and nonzero identifiers, the offset of call `n + 2`
equals the last identifier of response `n` plus one when that response is
nonempty, and is unchanged from call `n + 1` when it is empty. The nonzero
requirement is forced by the Python truthiness guard `if last_update:`,
which also suppresses the offset when the cursor holds the identifier 0. -/
theorem claim_C1_cursor_monotonicity (resps : List (List Int))
    (hinc : ∀ b ∈ resps, List.Pairwise (· < ·) b)
    (hnz : ∀ b ∈ resps, ∀ i ∈ b, i ≠ 0) :
    (resps ≠ [] → (pollingOffsets resps)[0]? = some none)
  ∧ ∀ n : Nat, n + 1 < resps.length →
      ((resps.getD n [] ≠ [] →
        (pollingOffsets resps)[n+1]? = some (some ((resps.getD n []).getLastD 0 + 1)))
     ∧ (resps.getD n [] = [] →
        (pollingOffsets resps)[n+1]? = (pollingOffsets resps)[n]?)) := by
  constructor
  · intro hne
    match resps with
    | b :: rest => simp [pollingOffsets, pollingOffsetsAux, pollingPayloadOffset]
  · intro n hn
    have hspec := pollingOffsetsAux_spec n none resps hn
    refine ⟨fun hb => ?_, hspec.2⟩
    have hmem : resps.getD n [] ∈ resps := by
      have hlt : n < resps.length := by omega
      rw [List.getD_eq_getElem resps [] hlt]
      exact List.getElem_mem hlt
    have hlast : (resps.getD n []).getLastD 0 ≠ 0 :=
      hnz _ hmem _ (getLastD_mem_of_ne_nil _ 0 hb)
    have := hspec.1 hb
    rw [pollingOffsets, this, pollingPayloadOffset, if_neg hlast]

/-- Claim C1, counterexample to the literal statement: the response `[0]`
has strictly increasing identifiers and is nonempty, so the claim requires
the second call to carry `offset = 0 + 1`; the code's truthiness guard
`if last_update:` treats the cursor 0 as falsy and sends no offset at all. -/
theorem claim_C1_counterexample :
    List.Pairwise (· < ·) ([0] : List Int)
  ∧ pollingOffsets [[0], []] = [none, none]
  ∧ ¬ (pollingOffsets [[0], []])[1]? = some (some (0 + 1)) := by decide

/-- Claim C1, witness: responses `[3, 5]`, `[]`, `[9]` give a first call
with no offset, a second call with offset 6, and a third call whose offset
is unchanged from the second. -/
theorem claim_C1_witness :
    (pollingOffsets [[3, 5], [], [9]])[0]? = some none
  ∧ (pollingOffsets [[3, 5], [], [9]])[1]? = some (some 6)
  ∧ (pollingOffsets [[3, 5], [], [9]])[2]? = (pollingOffsets [[3, 5], [], [9]])[1]? := by
  have h := claim_C1_cursor_monotonicity [[3, 5], [], [9]] (by decide) (by decide)
  exact ⟨h.1 (by decide), (h.2 0 (by decide)).1 (by decide), (h.2 1 (by decide)).2 (by decide)⟩

/-- Claim C2 (refuting the claimed silent no-op): on an update with no
extractable message — here one whose payload has only an `edited_message`
entry — `message_handler` is not a silent no-op: `build_message` returns
`None` and the log line then reads `message.user`, raising
`AttributeError`, whatever the resolver is. No `send_message` is issued
(the handler never reaches `discover_view`), but the coroutine faults
instead of completing, contradicting the claimed error-free completion and
matching the spec's stated intent only up to that fault. -/
theorem claim_C2_messageless_update_faults :
    ∀ resolve : Message → Option String,
      message_handler resolve (.obj [("edited_message", .obj [("text", .str "x")])]) =
        .raised .attributeError
    ∧ ∀ sent : List SendCall,
        message_handler resolve (.obj [("edited_message", .obj [("text", .str "x")])]) ≠
          .done sent :=
  fun _ => ⟨rfl, fun _ h => nomatch h⟩

/-- Claim C3: translation yields `None` for every object payload lacking a
`message` key, and for a payload whose `message` object carries
`message_id`, `text`, `date` and `from` (with `id` and `first_name`) it
yields a `Message` whose id, text, timestamp and user fields equal the
source fields exactly, with platform fixed to `telegram` and `raw` the
entire original payload. -/
theorem claim_C3_translation :
    (∀ fs : List (String × JValue), fs.lookup "message" = none →
       build_message (.obj fs) = some none)
  ∧ (∀ (mid dt uid : Int) (txt fname : String),
       build_message (.obj [("message", .obj [("message_id", .num mid),
         ("text", .str txt), ("date", .num dt),
         ("from", .obj [("id", .num uid), ("first_name", .str fname)])])]) =
       some (some ⟨.num mid, "telegram", .str txt,
         ⟨.num uid, .str fname, .null, .null, .null⟩, .num dt,
         .obj [("message", .obj [("message_id", .num mid), ("text", .str txt),
           ("date", .num dt),
           ("from", .obj [("id", .num uid), ("first_name", .str fname)])])]⟩)) := by
  constructor
  · intro fs h
    simp [build_message, JValue.get, h, JValue.truthy]
  · intro mid dt uid txt fname
    rfl

/-- Claim C3, witness: the spec's two scenario payloads, evaluated. -/
theorem claim_C3_witness :
    build_message (.obj [("edited_message", .obj [("text", .str "x")])]) = some none
  ∧ build_message (.obj [("message", .obj [("message_id", .num 5), ("text", .str "hi"),
      ("date", .num 1000), ("from", .obj [("id", .num 42), ("first_name", .str "A")])])]) =
    some (some ⟨.num 5, "telegram", .str "hi",
      ⟨.num 42, .str "A", .null, .null, .null⟩, .num 1000,
      .obj [("message", .obj [("message_id", .num 5), ("text", .str "hi"),
        ("date", .num 1000), ("from", .obj [("id", .num 42), ("first_name", .str "A")])])]⟩) :=
  ⟨claim_C3_translation.1 [("edited_message", .obj [("text", .str "x")])] rfl,
   claim_C3_translation.2 5 1000 42 "hi" "A"⟩

/-- Claim C4: for every name in the fixed allow-list, the generated URL is
the base URL, then `/bot`, the token, `/` and the mixed-case conversion of
the name (`delete_webhook` to `deleteWebhook`, `send_message` to
`sendMessage`, `set_webhook` to `setWebhook`, `get_updates` to
`getUpdates`). -/
theorem claim_C4_url_generation (token : String) :
    telegram_methods = ["delete_webhook", "send_message", "set_webhook", "get_updates"]
  ∧ make_url token "delete_webhook" =
      "https://api.telegram.org" ++ "/bot" ++ token ++ "/" ++ "deleteWebhook"
  ∧ make_url token "send_message" =
      "https://api.telegram.org" ++ "/bot" ++ token ++ "/" ++ "sendMessage"
  ∧ make_url token "set_webhook" =
      "https://api.telegram.org" ++ "/bot" ++ token ++ "/" ++ "setWebhook"
  ∧ make_url token "get_updates" =
      "https://api.telegram.org" ++ "/bot" ++ token ++ "/" ++ "getUpdates" :=
  ⟨rfl, rfl, rfl, rfl, rfl⟩

/-- Claim C5: every operation name outside the allow-list makes attribute
lookup raise `AttributeError` (`none`): no URL is built and no closure that
could POST is returned, so no HTTP call can be attempted. -/
theorem claim_C5_unsupported_operation (token attr : String)
    (h : attr ∉ telegram_methods) : telegram_api_getattr token attr = none := by
  simp [telegram_api_getattr, h]

/-- Claim C5, witness: `get_me` is not in the allow-list and is refused. -/
theorem claim_C5_witness : telegram_api_getattr "TOKEN" "get_me" = none :=
  claim_C5_unsupported_operation "TOKEN" "get_me" (by decide)

/-- Claim C6: with no configured hostname (or an empty one) webhook
configuration raises `ImproperlyConfigured` and its result carries no
remote call, so `set_webhook` is never reached; with a truthy hostname the
single remote call is `set_webhook` with exactly that hostname. -/
theorem claim_C6_webhook_hostname_required :
    configure_webhook none = .error .missingHostname
  ∧ configure_webhook (some "") = .error .missingHostname
  ∧ ∀ s : String, s ≠ "" → configure_webhook (some s) = .ok [.set_webhook s] := by
  refine ⟨rfl, rfl, fun s hs => ?_⟩
  simp [configure_webhook, hs]

/-- Claim C6, witness: the absent-hostname failure and one configured
hostname. -/
theorem claim_C6_witness :
    configure_webhook none = .error .missingHostname
  ∧ configure_webhook (some "bot.example.com") = .ok [.set_webhook "bot.example.com"] :=
  ⟨claim_C6_webhook_hostname_required.1,
   claim_C6_webhook_hostname_required.2.2 "bot.example.com" (by decide)⟩

/-- Claim C7: a mode naming neither `configure_polling` nor
`configure_webhook` makes `configure` raise `ImproperlyConfigured` naming
that mode, running no routine; the two known modes run exactly their
routine; an unset mode defaults to `polling`. -/
theorem claim_C7_mode_dispatch :
    (∀ mode : String, mode ≠ "polling" → mode ≠ "webhook" →
       configure mode = .error (.noConfigureMethod mode))
  ∧ configure "polling" = .ok .polling
  ∧ configure "webhook" = .ok .webhook
  ∧ default_mode none = "polling" := by
  refine ⟨fun mode h1 h2 => ?_, rfl, rfl, rfl⟩
  have e1 : ¬ "configure_" ++ mode = "configure_polling" := fun h =>
    h1 (string_append_left_cancel (a := "configure_") (h.trans rfl))
  have e2 : ¬ "configure_" ++ mode = "configure_webhook" := fun h =>
    h2 (string_append_left_cancel (a := "configure_") (h.trans rfl))
  simp [configure, engine_configure_method, e1, e2]

/-- Claim C7, witness: the mode `longpolling` is rejected, the two known
modes are dispatched, and the default mode is `polling`. -/
theorem claim_C7_witness :
    configure "longpolling" = .error (.noConfigureMethod "longpolling")
  ∧ configure "polling" = .ok .polling
  ∧ configure "webhook" = .ok .webhook
  ∧ default_mode none = "polling" :=
  ⟨claim_C7_mode_dispatch.1 "longpolling" (by decide) (by decide),
   claim_C7_mode_dispatch.2.1, claim_C7_mode_dispatch.2.2.1,
   claim_C7_mode_dispatch.2.2.2⟩

/-- Claim C9: running webhook configuration twice with the same truthy
hostname performs the same single `set_webhook` remote call each time —
the two-run trace is exactly two identical calls, each with the hostname
as its URL argument, with no cumulative effect. -/
theorem claim_C9_webhook_idempotent (s : String) (hs : s ≠ "") :
    configure_webhook_twice (some s) = .ok [.set_webhook s, .set_webhook s]
  ∧ configure_webhook (some s) = .ok [.set_webhook s] := by
  simp [configure_webhook_twice, configure_webhook, hs]

/-- Claim C9, witness: two runs with the hostname `bot.example.org`. -/
theorem claim_C9_witness :
    configure_webhook_twice (some "bot.example.org") =
      .ok [.set_webhook "bot.example.org", .set_webhook "bot.example.org"]
  ∧ configure_webhook (some "bot.example.org") = .ok [.set_webhook "bot.example.org"] :=
  claim_C9_webhook_idempotent "bot.example.org" (by decide)

/-- Claim C10: a payload whose `message` key is present but bound to a
falsy value (empty object, `null`, ...) makes `build_message` return
`None` exactly as if the key were absent — the guard is `if not
message_data:`, truthiness rather than key presence — and no `Message` is
constructed. -/
theorem claim_C10_falsy_message_value (fs : List (String × JValue)) (v : JValue)
    (h : fs.lookup "message" = some v) (hv : v.truthy = false) :
    build_message (.obj fs) = some none := by
  simp [build_message, JValue.get, h, hv]

/-- Claim C10, witness: `message` bound to an empty object and to `null`. -/
theorem claim_C10_witness :
    build_message (.obj [("message", .obj [])]) = some none
  ∧ build_message (.obj [("message", .null)]) = some none :=
  ⟨claim_C10_falsy_message_value [("message", .obj [])] (.obj []) rfl rfl,
   claim_C10_falsy_message_value [("message", .null)] .null rfl rfl⟩

end BotteryTelegram
